import Mathlib

/-!
Verification of the UI shell core of the esp-assistant firmware.

Shallow embedding of the five core components (touch-gesture recognizer,
page router, hexagonal grid layout, circular slider, frame compositor)
translated from the C++ sources:
  src/controllers/TouchController.cpp
  src/controllers/NavigationController.cpp
  src/views/layouts/HexagonalGrid.cpp
  src/views/components/CircularSlider.cpp
  src/hardware/display/FrameBuffer.cpp

Conventions of the embedding:
* `int16_t` values are modelled as `ℤ`; every C narrowing assignment to an
  `int16_t` lvalue is modelled by the wrapping function `i16` (C integer
  promotion performs the arithmetic at `int` width, then the store wraps).
* `uint32_t` millisecond timestamps are modelled as `ℕ`; `millis()` is
  monotonic, so the duration subtractions `now - start` agree with the
  unsigned 32-bit subtraction whenever `start ≤ now`, which the claims
  assume (truncated `Nat` subtraction is used).
* `float` quantities are modelled exactly: by `ℚ` where only field
  arithmetic occurs (slider values) and by `ℝ` where transcendental
  functions occur (trigonometry in the hex layout and the slider's
  `atan2`).  A C cast `(int16_t)` of a float is truncation toward zero,
  modelled by `truncR` / `truncQ`.
-/

/-- Wrap an integer into the `int16_t` range `[-32768, 32767]`,
modelling a C narrowing store to an `int16_t` lvalue. -/
def i16 (n : ℤ) : ℤ := (n + 32768) % 65536 - 32768

/-- Truncation toward zero of a rational, the C `(int16_t)`/`(int)` cast
applied to a float value (before the 16-bit wrap). -/
def truncQ (q : ℚ) : ℤ := if 0 ≤ q then ⌊q⌋ else ⌈q⌉

/-- Truncation toward zero of a real, the C `(int16_t)`/`(int)` cast
applied to a float value (before the 16-bit wrap). -/
noncomputable def truncR (r : ℝ) : ℤ := if 0 ≤ r then ⌊r⌋ else ⌈r⌉

theorem i16_eq_self {n : ℤ} (h₁ : -32768 ≤ n) (h₂ : n ≤ 32767) : i16 n = n := by
  unfold i16; omega

@[simp] theorem truncR_zero : truncR 0 = 0 := by
  unfold truncR; simp

/-! ## TouchController (src/controllers/TouchController.cpp)

Constants: `TAP_MAX_DURATION 300`, `LONG_PRESS_DURATION 800`,
`DRAG_THRESHOLD 10`, `SWIPE_THRESHOLD 50`. -/

/-- `enum class TouchEvent` from TouchController.h. -/
inductive TouchEvent where
  | NONE | TAP | DOUBLE_TAP | LONG_PRESS
  | DRAG_START | DRAG_MOVE | DRAG_END
  | SWIPE_UP | SWIPE_DOWN | SWIPE_LEFT | SWIPE_RIGHT
  deriving DecidableEq, Repr

/-- `struct TouchPoint` from TouchController.h. -/
structure TouchPoint where
  x : ℤ
  y : ℤ
  pressed : Bool
  timestamp : ℕ
  deriving DecidableEq, Repr

/-- Mutable state of `TouchController` (its private data members). -/
structure TouchState where
  currentTouch : TouchPoint
  lastTouch : TouchPoint
  touchStart : TouchPoint
  lastEvent : TouchEvent
  touchStartTime : ℕ
  isDragging : Bool
  deriving DecidableEq, Repr

namespace TouchController

/-- The state established by the `TouchController` constructor. -/
def initState : TouchState :=
  { currentTouch := ⟨0, 0, false, 0⟩
    lastTouch := ⟨0, 0, false, 0⟩
    touchStart := ⟨0, 0, false, 0⟩
    lastEvent := .NONE
    touchStartTime := 0
    isDragging := false }

/-- `TouchController::detectGestures`.  `now` is the value of `millis()`
for this tick (the update loop samples it once per frame). -/
def detectGestures (s : TouchState) (now : ℕ) : TouchState :=
  let deltaX := i16 (s.currentTouch.x - s.touchStart.x)
  let deltaY := i16 (s.currentTouch.y - s.touchStart.y)
  let duration := now - s.touchStartTime
  -- Long press detection (early return on emission)
  if !s.isDragging ∧ duration > 800 ∧ |deltaX| < 10 ∧ |deltaY| < 10 then
    { s with lastEvent := .LONG_PRESS }
  -- Drag detection
  else if |deltaX| > 10 ∨ |deltaY| > 10 then
    if !s.isDragging then
      { s with lastEvent := .DRAG_START, isDragging := true }
    else
      { s with lastEvent := .DRAG_MOVE }
  else s

/-- `TouchController::resetGestureState`. -/
def resetGestureState (s : TouchState) : TouchState :=
  { s with isDragging := false, touchStartTime := 0 }

/-- `TouchController::update` for one frame.  `(rx, ry)` is the raw
sample read from the touch driver, `touched` its pressed flag and
`now` this frame's `millis()` value. -/
def update (s : TouchState) (rx ry : ℤ) (touched : Bool) (now : ℕ) : TouchState :=
  let s := { s with lastEvent := .NONE, lastTouch := s.currentTouch }
  let cur : TouchPoint := ⟨rx, ry, touched, now⟩
  let s := { s with currentTouch := cur }
  if touched ∧ ¬s.lastTouch.pressed then
    -- Touch started
    { s with touchStart := cur, touchStartTime := now, isDragging := false }
  else if touched ∧ s.lastTouch.pressed then
    -- Touch continuing
    detectGestures s now
  else if ¬touched ∧ s.lastTouch.pressed then
    -- Touch ended
    let duration := now - s.touchStartTime
    let s :=
      if s.isDragging then { s with lastEvent := .DRAG_END }
      else if duration < 300 then { s with lastEvent := .TAP }
      else s
    resetGestureState s
  else s

end TouchController

/-! ## NavigationController (src/controllers/NavigationController.cpp)

Pages (`PageView*`) are opaque handles, modelled by natural-number tags;
their `onEnter`/`onExit` lifecycle calls have no effect on router state
and are not modelled.  A route's factory (`PageView* (*createView)()`)
is modelled by the handle it produces, `none` standing for a factory
that returns `nullptr`.  A guard (`RouteGuard*`, an external
collaborator) is modelled by its observable behaviour: the verdict of
`canActivate` and the string returned by `getRedirectPath`.  The C++
navigation stack is a `std::vector` with the top at `back()`; it is
modelled head-as-top (push_back ↦ cons, back ↦ head, pop_back ↦ tail). -/

/-- Observable behaviour of a `RouteGuard`. -/
structure RouteGuard where
  canActivate : Bool
  redirectPath : String
  deriving DecidableEq, Repr

/-- `struct Route` from NavigationController.h (`userData` omitted,
never read by the router). -/
structure Route where
  path : String
  name : String
  createView : Option ℕ
  guard : Option RouteGuard
  requiresAuth : Bool
  deriving DecidableEq, Repr

/-- Mutable state of `NavigationController`: the route registry, the
page stack (top at head) and the current-route pointer. -/
structure NavState where
  routes : List Route
  stack : List ℕ
  currentRoute : Option Route
  deriving DecidableEq, Repr

namespace NavigationController

/-- `NavigationController::findRoute`: first registered route whose
path compares equal (`strcmp == 0`). -/
def findRoute (routes : List Route) (path : String) : Option Route :=
  routes.find? (fun r => r.path = path)

/-- `NavigationController::canActivateRoute` (the `route == nullptr`
case cannot arise here: the caller has a found route in hand).  The
`requiresAuth` branch currently returns `true` (auth check is a TODO in
the source). -/
def canActivateRoute (route : Route) : Bool :=
  match route.guard with
  | some gu => gu.canActivate
  | none => if route.requiresAuth then true else true

/-- `NavigationController::navigateTo`.  The guard-redirect branch
recurses; `fuel` bounds that recursion (the C++ version can loop
forever on a cycle of guards, which no claim exercises; with zero fuel
the call fails without touching the state). -/
def navigateTo (fuel : ℕ) (s : NavState) (path : String) (clearStack : Bool) :
    NavState × Bool :=
  match fuel with
  | 0 => (s, false)
  | fuel + 1 =>
    match findRoute s.routes path with
    | none => (s, false)
    | some route =>
      if ¬canActivateRoute route then
        -- Redirect to guard's redirect path (with redirect-loop check)
        match route.guard with
        | some gu =>
          if gu.redirectPath ≠ path then navigateTo fuel s gu.redirectPath false
          else (s, false)
        | none => (s, false)
      else
        -- Clear stack if requested (pages destroyed eagerly, not rolled back)
        let s := if clearStack then { s with stack := [] } else s
        match route.createView with
        | none => (s, false)
        | some page =>
          ({ s with stack := page :: s.stack, currentRoute := some route }, true)

/-- `NavigationController::canGoBack`. -/
def canGoBack (s : NavState) : Bool := s.stack.length > 1

/-- `NavigationController::goBack`. -/
def goBack (s : NavState) : NavState × Bool :=
  if ¬canGoBack s then (s, false)
  else
    -- Exit and destroy the top page, pop it
    let s' := { s with stack := s.stack.tail }
    -- Enter previous page; current-route tracking is not reconstructed
    let s' :=
      if ¬s'.stack.isEmpty then { s' with currentRoute := none } else s'
    (s', true)

/-- `NavigationController::getCurrentRoute`. -/
def getCurrentRoute (s : NavState) : Option Route := s.currentRoute

end NavigationController

/-! ## FrameBuffer (src/hardware/display/FrameBuffer.cpp)

`SCREEN_WIDTH = 360`, `SCREEN_HEIGHT = 360` (include/config/Config.h).
The pixel surfaces themselves and the TFT handle are external; the
modelled state is the dirty-region tracker the claims are about, plus
the frame counter touched by `endFrame`. -/

/-- `struct DirtyRegion` (FrameBuffer.h). -/
structure DirtyRegion where
  x : ℤ
  y : ℤ
  width : ℤ
  height : ℤ
  dirty : Bool
  deriving DecidableEq, Repr

/-- Dirty-tracking state of `FrameBuffer`. -/
structure FrameBufferState where
  dirtyTracking : Bool
  dirtyRegion : DirtyRegion
  frameCount : ℕ
  deriving DecidableEq, Repr

namespace FrameBuffer

/-- `FrameBuffer::markDirty`.  Clamps the rectangle to screen bounds,
then adopts it (clean state) or replaces the tracked rectangle with the
bounding-box union (dirty state).  Narrowing stores to the `int16_t`
fields wrap via `i16`. -/
def markDirty (fb : FrameBufferState) (x y width height : ℤ) : FrameBufferState :=
  if ¬fb.dirtyTracking then fb
  else
    -- Clamp to screen bounds (`width += x; x = 0` uses the incoming x)
    let width := if x < 0 then i16 (width + x) else width
    let x := if x < 0 then 0 else x
    let height := if y < 0 then i16 (height + y) else height
    let y := if y < 0 then 0 else y
    let width := if x + width > 360 then i16 (360 - x) else width
    let height := if y + height > 360 then i16 (360 - y) else height
    if width ≤ 0 ∨ height ≤ 0 then fb
    else if ¬fb.dirtyRegion.dirty then
      { fb with dirtyRegion := ⟨x, y, width, height, true⟩ }
    else
      -- Merge with existing dirty region
      let r := fb.dirtyRegion
      let x1 := min r.x x
      let y1 := min r.y y
      let x2 := i16 (max (r.x + r.width) (x + width))
      let y2 := i16 (max (r.y + r.height) (y + height))
      { fb with dirtyRegion := ⟨x1, y1, i16 (x2 - x1), i16 (y2 - y1), r.dirty⟩ }

/-- `FrameBuffer::markAllDirty`: unconditionally the full surface. -/
def markAllDirty (fb : FrameBufferState) : FrameBufferState :=
  { fb with dirtyRegion := ⟨0, 0, 360, 360, true⟩ }

/-- `FrameBuffer::clearDirtyFlags`. -/
def clearDirtyFlags (fb : FrameBufferState) : FrameBufferState :=
  { fb with dirtyRegion := { fb.dirtyRegion with dirty := false } }

/-- The bounding-box union of two clamped rectangles, as the spec
describes the merge result. -/
def boundingUnion (a b : DirtyRegion) : DirtyRegion :=
  ⟨min a.x b.x, min a.y b.y,
   max (a.x + a.width) (b.x + b.width) - min a.x b.x,
   max (a.y + a.height) (b.y + b.height) - min a.y b.y, true⟩

end FrameBuffer

/-! ## CircularSlider (src/views/components/CircularSlider.cpp)

Slider values (`float m_value` etc.) are modelled by `ℚ`; the smoothing
constants `0.2f`/`0.1f` are taken at their intended values `1/5`/`1/10`.
The touch angle comes from `atan2(dy, dx) * RAD_TO_DEG` cast to
`int16_t`; `atan2` is modelled exactly via `Complex.arg` and
`RAD_TO_DEG` as `180/π`.  `normalizeAngle`'s two `while` loops compute
the Euclidean remainder mod 360. -/

/-- `normalizeAngle` (CircularSlider.cpp): bring an angle into
`[0, 360)` by repeatedly adding/subtracting 360. -/
def normalizeAngle (a : ℤ) : ℤ := a % 360

/-- Mutable state of `CircularSlider` (colors, label, mode and the
value-changed callback are external display concerns, not modelled). -/
structure SliderState where
  centerX : ℤ
  centerY : ℤ
  radius : ℤ
  innerRadius : ℤ
  value : ℚ
  minValue : ℚ
  maxValue : ℚ
  targetValue : ℚ
  startAngle : ℤ
  endAngle : ℤ
  currentAngle : ℤ
  enabled : Bool
  isDragging : Bool
  hasChanged : Bool
  deriving DecidableEq, Repr

namespace CircularSlider

/-- The `CircularSlider` constructor. -/
def mk (centerX centerY radius innerRadius : ℤ) : SliderState :=
  { centerX := centerX, centerY := centerY
    radius := radius, innerRadius := innerRadius
    value := 0, minValue := 0, maxValue := 100, targetValue := 0
    startAngle := 135, endAngle := 45, currentAngle := 135
    enabled := true, isDragging := false, hasChanged := false }

/-- The relative-angle computation shared by `calculateValueFromAngle`
(and mirrored in `calculateAngleFromTouch`): offset of `m_currentAngle`
from `m_startAngle`, unwrapping across 0°. -/
def relAngleOf (s : SliderState) : ℤ :=
  if s.currentAngle ≥ s.startAngle then s.currentAngle - s.startAngle
  else (360 - s.startAngle) + s.currentAngle

/-- `CircularSlider::calculateValueFromAngle`. -/
def calculateValueFromAngle (s : SliderState) : SliderState :=
  let relativeAngle := relAngleOf s
  let normalizedValue : ℚ := (relativeAngle : ℚ) / 270
  let target := s.minValue + normalizedValue * (s.maxValue - s.minValue)
  { s with targetValue := target, value := target }

/-- The two sequential clamp statements
`if (v < min) v = min; if (v > max) v = max` shared by `setRange` and
`setValue`. -/
def clampLH (mn mx v : ℚ) : ℚ :=
  let v := if v < mn then mn else v
  if v > mx then mx else v

/-- `CircularSlider::setRange`. -/
def setRange (s : SliderState) (mn mx : ℚ) : SliderState :=
  let s := { s with minValue := mn, maxValue := mx }
  calculateValueFromAngle { s with value := clampLH mn mx s.value }

/-- `CircularSlider::setValue`. -/
def setValue (s : SliderState) (value : ℚ) : SliderState :=
  let value := clampLH s.minValue s.maxValue value
  if s.value ≠ value then
    let normalizedValue := (value - s.minValue) / (s.maxValue - s.minValue)
    let angleRange : ℚ := 270
    let ca := normalizeAngle (i16 (s.startAngle + truncQ (normalizedValue * angleRange)))
    { s with value := value, targetValue := value, currentAngle := ca,
             hasChanged := true }
  else s

/-- `CircularSlider::contains`: annular test
`innerRadius ≤ dist(center, p) ≤ radius`.  With `dist = √(dx²+dy²) ≥ 0`
this is equivalent to the squared comparisons below (a comparison
`√d2 ⋛ r` with integer `d2`, `r` is decided exactly by float `sqrt`
at these magnitudes). -/
def contains (s : SliderState) (x y : ℤ) : Bool :=
  let dx := i16 (x - s.centerX)
  let dy := i16 (y - s.centerY)
  let d2 := dx * dx + dy * dy
  (decide (s.innerRadius ≤ 0) || decide (s.innerRadius ^ 2 ≤ d2)) &&
    (decide (0 ≤ s.radius) && decide (d2 ≤ s.radius ^ 2))

/-- The raw relative angle computed by `calculateAngleFromTouch` before
its dead-zone clamp, from the int16 degree value `angleDeg` produced by
the `atan2` cast: add 90° (convert to "0 = up"), normalize to
`[0, 360)`, and take the offset from `m_startAngle = 135`. -/
def touchRelAngleRaw (s : SliderState) (angleDeg : ℤ) : ℤ :=
  let a := normalizeAngle (i16 (angleDeg + 90))
  if a ≥ s.startAngle then a - s.startAngle else (360 - s.startAngle) + a

/-- `CircularSlider::calculateAngleFromTouch` downstream of the `atan2`
cast: clamp the raw relative angle to the 270° range (snapping
dead-zone angles to the nearest end) and store the new current angle. -/
def calculateAngleFromTouchDeg (s : SliderState) (angleDeg : ℤ) : SliderState :=
  let relativeAngle := touchRelAngleRaw s angleDeg
  let relativeAngle :=
    if relativeAngle > 270 then
      -- Snap to nearest end
      if relativeAngle > 315 then (270 : ℤ) else 0
    else relativeAngle
  { s with currentAngle := normalizeAngle (i16 (s.startAngle + relativeAngle)) }

/-- C `atan2(y, x)`, exactly: the argument of the complex number
`x + iy`, in `(-π, π]`. -/
noncomputable def atan2 (y x : ℝ) : ℝ := Complex.arg ⟨x, y⟩

/-- The int16 degree value `(int16_t)(atan2(dy, dx) * RAD_TO_DEG)`. -/
noncomputable def touchAngleDeg (dy dx : ℤ) : ℤ :=
  i16 (truncR (atan2 (dy : ℝ) (dx : ℝ) * (180 / Real.pi)))

/-- `CircularSlider::calculateAngleFromTouch`, full pipeline. -/
noncomputable def calculateAngleFromTouch (s : SliderState) (touchX touchY : ℤ) :
    SliderState :=
  let dx := i16 (touchX - s.centerX)
  let dy := i16 (touchY - s.centerY)
  calculateAngleFromTouchDeg s (touchAngleDeg dy dx)

/-- The trailing "smooth value animation" block of
`CircularSlider::update`: step `m_value` 20% of the way toward
`m_targetValue`, snapping once the remaining distance is below 0.1. -/
def smoothAnimation (s : SliderState) : SliderState :=
  if s.value ≠ s.targetValue then
    let diff := s.targetValue - s.value
    let v := s.value + diff * (1 / 5 : ℚ)
    let v := if |diff| < (1 / 10 : ℚ) then s.targetValue else v
    { s with value := v }
  else s

/-- `CircularSlider::update` for one frame's touch point
(the value-changed callback is external and has no state effect). -/
noncomputable def update (s : SliderState) (pressed : Bool) (tx ty : ℤ) :
    SliderState :=
  if ¬s.enabled then s
  else
    let isTouching := pressed
    let touchInBounds := contains s tx ty
    let s :=
      if isTouching && touchInBounds then
        let s := { s with isDragging := true }
        -- Update angle based on touch position
        let s := calculateAngleFromTouch s tx ty
        let s := calculateValueFromAngle s
        { s with hasChanged := true }
      else if s.isDragging && !isTouching then { s with isDragging := false }
      else s
    -- Smooth value animation (optional)
    smoothAnimation s

/-- One externally invocable slider operation. -/
inductive SliderOp where
  | setValue (v : ℚ)
  | setRange (mn mx : ℚ)
  | update (pressed : Bool) (x y : ℤ)

/-- Apply one operation. -/
noncomputable def applyOp (s : SliderState) : SliderOp → SliderState
  | .setValue v => setValue s v
  | .setRange mn mx => setRange s mn mx
  | .update pressed x y => update s pressed x y

/-- Apply a sequence of operations in order. -/
noncomputable def applyOps (s : SliderState) (ops : List SliderOp) : SliderState :=
  ops.foldl applyOp s

/-- A `setRange` call is well-formed when its bounds are ordered. -/
def opWF : SliderOp → Prop
  | .setRange mn mx => mn ≤ mx
  | _ => True

/-- The slider's value/angle invariant: value and target within
`[min, max]`, the range ordered, and the current angle inside `[0, 360)`
at an offset of at most 270° from the fixed start angle 135°. -/
def Inv (s : SliderState) : Prop :=
  s.minValue ≤ s.maxValue ∧
  s.minValue ≤ s.value ∧ s.value ≤ s.maxValue ∧
  s.minValue ≤ s.targetValue ∧ s.targetValue ≤ s.maxValue ∧
  0 ≤ s.currentAngle ∧ s.currentAngle < 360 ∧
  relAngleOf s ≤ 270 ∧
  s.startAngle = 135

end CircularSlider

/-! ## HexagonalGrid (src/views/layouts/HexagonalGrid.cpp)

`SCREEN_WIDTH = SCREEN_HEIGHT = 360`.  `m_hexDistance` is a `float`
holding the exact integer `itemRadius * 2 + spacing`, modelled as `ℤ`.
The Arduino `PI` constant is modelled as the exact `π` and the
`(int16_t)` casts of the trigonometric products by `truncR`/`i16`. -/

/-- `struct GridItem`.  `onTap` records whether the `onTap` function
pointer is non-null (invoking the callback is external); the render-only
fields `label`, `icon`, `backgroundColor`, `userData` are not modelled. -/
structure GridItem where
  onTap : Bool
  x : ℤ
  y : ℤ
  index : ℤ
  visible : Bool
  deriving DecidableEq, Repr

instance : Inhabited GridItem := ⟨⟨false, 0, 0, 0, false⟩⟩

/-- Mutable state of `HexagonalGrid`. -/
structure GridState where
  items : List GridItem
  centerX : ℤ
  centerY : ℤ
  itemRadius : ℤ
  spacing : ℤ
  scrollOffsetX : ℤ
  scrollOffsetY : ℤ
  maxScrollX : ℤ
  maxScrollY : ℤ
  hexDistance : ℤ
  smoothScrolling : Bool
  deriving Repr

namespace HexagonalGrid

/-- The `HexagonalGrid` constructor. -/
def mk (centerX centerY itemRadius spacing : ℤ) : GridState :=
  { items := [], centerX := centerX, centerY := centerY
    itemRadius := itemRadius, spacing := spacing
    scrollOffsetX := 0, scrollOffsetY := 0, maxScrollX := 0, maxScrollY := 0
    hexDistance := itemRadius * 2 + spacing, smoothScrolling := true }

/-- `const int HexagonalGrid::RING_ITEMS[] = {1, 6, 12, 18, 24, 30}`. -/
def RING_ITEMS : List ℕ := [1, 6, 12, 18, 24, 30]

/-- The ring-search loop of `getHexPosition` (`for (r = 0; r < 6; ...)`)
over the remaining ring capacities, carrying the loop counter `r`, the
running `cumulativeItems` and the last assigned `itemsBeforeRing`.
Falling off the loop leaves `ring` at its initial value `0` with
`itemsBeforeRing` equal to the full cumulative count. -/
def ringScanAux (index : ℕ) : List ℕ → ℕ → ℕ → ℕ → ℕ × ℕ
  | [], _, _, itemsBeforeRing => (0, itemsBeforeRing)
  | c :: rest, r, cumulativeItems, itemsBeforeRing =>
    let cumulativeItems := cumulativeItems + c
    if index < cumulativeItems then (r, itemsBeforeRing)
    else ringScanAux index rest (r + 1) cumulativeItems cumulativeItems

/-- Ring search of `getHexPosition`: `(ring, itemsBeforeRing)`. -/
def ringScan (index : ℕ) : ℕ × ℕ := ringScanAux index RING_ITEMS 0 0 0

/-- `HexagonalGrid::getHexPosition`: the `(x, y)` written through the
output parameters for a given item index. -/
noncomputable def getHexPosition (g : GridState) (index : ℕ) : ℤ × ℤ :=
  if index = 0 then
    -- Center item
    (g.centerX, g.centerY)
  else
    let ring := (ringScan index).1
    let itemsBeforeRing := (ringScan index).2
    let positionInRing := index - itemsBeforeRing
    let itemsInRing := RING_ITEMS.getD ring 0
    let angle : ℝ :=
      (2 * Real.pi * (positionInRing : ℝ)) / (itemsInRing : ℝ) + Real.pi / 6
    let radius : ℝ := (ring : ℝ) * (g.hexDistance : ℝ)
    (i16 (g.centerX + truncR (radius * Real.cos angle)),
     i16 (g.centerY + truncR (radius * Real.sin angle)))

/-- The position-assignment loop of `calculateItemPositions`, updating
each item's `x`/`y` from its list slot. -/
noncomputable def setPositions (g : GridState) : List GridItem → ℕ → List GridItem
  | [], _ => []
  | it :: rest, i =>
    { it with x := (getHexPosition g i).1, y := (getHexPosition g i).2 } ::
      setPositions g rest (i + 1)

/-- `HexagonalGrid::calculateItemPositions`. -/
noncomputable def calculateItemPositions (g : GridState) : GridState :=
  { g with items := setPositions g g.items 0 }

/-- `HexagonalGrid::updateScrollBounds` (`Int.tdiv` is C's
round-toward-zero integer division). -/
def updateScrollBounds (g : GridState) : GridState :=
  match g.items with
  | [] => { g with maxScrollX := 0, maxScrollY := 0 }
  | it0 :: _ =>
    let minX := g.items.foldl (fun m it => min m it.x) it0.x
    let maxX := g.items.foldl (fun m it => max m it.x) it0.x
    let minY := g.items.foldl (fun m it => min m it.y) it0.y
    let maxY := g.items.foldl (fun m it => max m it.y) it0.y
    let gridWidth := i16 (maxX - minX + g.itemRadius * 2)
    let gridHeight := i16 (maxY - minY + g.itemRadius * 2)
    { g with maxScrollX := max 0 (Int.tdiv (gridWidth - 360) 2),
             maxScrollY := max 0 (Int.tdiv (gridHeight - 360) 2) }

/-- `HexagonalGrid::addItem`: copy the item, assign the next index,
start invisible, append, then recompute all positions and the scroll
bounds. -/
noncomputable def addItem (g : GridState) (item : GridItem) : GridState :=
  let newItem := { item with index := (g.items.length : ℤ), visible := false }
  let g := { g with items := g.items ++ [newItem] }
  let g := calculateItemPositions g
  updateScrollBounds g

/-- `HexagonalGrid::isItemVisible`: scrolled position within screen
bounds expanded by `itemRadius + 10`. -/
def isItemVisible (g : GridState) (it : GridItem) : Bool :=
  let screenX := i16 (it.x + g.scrollOffsetX)
  let screenY := i16 (it.y + g.scrollOffsetY)
  let margin := g.itemRadius + 10
  decide (screenX ≥ -margin) && decide (screenX < 360 + margin) &&
    decide (screenY ≥ -margin) && decide (screenY < 360 + margin)

/-- `HexagonalGrid::render`: recompute every item's `visible` flag
(drawing is external). -/
def render (g : GridState) : GridState :=
  { g with items := g.items.map (fun it => { it with visible := isItemVisible g it }) }

/-- The per-item distance test of `getItemAtPosition`
(`distSquared <= itemRadius * itemRadius`, with the `int16_t`
narrowing of `dx`, `dy` and `distSquared`). -/
def hitTest (g : GridState) (it : GridItem) (x y : ℤ) : Bool :=
  let screenX := i16 (it.x + g.scrollOffsetX)
  let screenY := i16 (it.y + g.scrollOffsetY)
  let dx := i16 (x - screenX)
  let dy := i16 (y - screenY)
  let distSquared := i16 (dx * dx + dy * dy)
  decide (distSquared ≤ g.itemRadius * g.itemRadius)

/-- The scan loop of `getItemAtPosition`: first item (by list slot,
counting from `i`) that is visible and within `itemRadius` of the touch;
invisible items are skipped. -/
def findHit (g : GridState) (x y : ℤ) : List GridItem → ℕ → Option ℕ
  | [], _ => none
  | it :: rest, i =>
    if ¬it.visible then findHit g x y rest (i + 1)
    else if hitTest g it x y then some i
    else findHit g x y rest (i + 1)

/-- `HexagonalGrid::getItemAtPosition`, returning the list slot of the
found item (`nullptr` ↦ `none`). -/
def getItemAtPosition (g : GridState) (x y : ℤ) : Option ℕ :=
  findHit g x y g.items 0

/-- `HexagonalGrid::handleTap`: true iff an item was found and its
`onTap` callback is non-null (the callback itself is external). -/
def handleTap (g : GridState) (x y : ℤ) : Bool :=
  match getItemAtPosition g x y with
  | some i => (g.items.getD i default).onTap
  | none => false

end HexagonalGrid

/-! # Theorems -/

/-! ## Shared helper lemmas -/

theorem floor_45_sqrt3 : ⌊(45 : ℝ) * Real.sqrt 3⌋ = 77 := by
  have h3 : Real.sqrt 3 ^ 2 = 3 := Real.sq_sqrt (by norm_num)
  have hnn : (0 : ℝ) ≤ Real.sqrt 3 := Real.sqrt_nonneg 3
  rw [Int.floor_eq_iff]
  constructor
  · push_cast
    nlinarith [h3, hnn]
  · push_cast
    nlinarith [h3, hnn]

/-- Evaluation of `getHexPosition` at index 1 for
`itemRadius = 40, spacing = 10` (so `hexDistance = 90`): ring 1, slot 0,
angle `π/6`, giving `(cx + ⌊90·cos(π/6)⌋, cy + ⌊90·sin(π/6)⌋)
= (cx + ⌊45√3⌋, cy + 45) = (cx + 77, cy + 45)`. -/
theorem getHexPosition_one_eval (cx cy : ℤ)
    (hx1 : -32768 ≤ cx + 77) (hx2 : cx + 77 ≤ 32767)
    (hy1 : -32768 ≤ cy + 45) (hy2 : cy + 45 ≤ 32767) :
    HexagonalGrid.getHexPosition (HexagonalGrid.mk cx cy 40 10) 1
      = (cx + 77, cy + 45) := by
  have hscan : HexagonalGrid.ringScan 1 = (1, 1) := by decide
  have hring : HexagonalGrid.RING_ITEMS.getD 1 0 = 6 := by decide
  simp only [HexagonalGrid.getHexPosition, HexagonalGrid.mk, hscan, hring]
  norm_num
  have h2 : truncR ((90 : ℝ) * (Real.sqrt 3 / 2)) = 77 := by
    have h1 : (90 : ℝ) * (Real.sqrt 3 / 2) = 45 * Real.sqrt 3 := by ring
    rw [h1]
    unfold truncR
    rw [if_pos (by positivity)]
    exact floor_45_sqrt3
  have h3 : truncR (45 : ℝ) = 45 := by
    unfold truncR
    rw [if_pos (by norm_num)]
    have h45 : ((45 : ℝ)) = ((45 : ℤ) : ℝ) := by norm_num
    rw [h45, Int.floor_intCast]
  rw [h2, h3]
  exact ⟨i16_eq_self hx1 hx2, i16_eq_self hy1 hy2⟩

/-! ## C10 — indices beyond the ring table -/

/-- C10: the ring table covers 1+6+12+18+24+30 = 91 items; for every
index ≥ 91 the ring search falls through with ring 0 (hence radius 0)
and `getHexPosition` returns exactly the center `(centerX, centerY)`,
the same position as index 0. -/
theorem HexagonalGrid.getHexPosition_overflow_center (g : GridState) (index : ℕ)
    (h91 : 91 ≤ index)
    (hcx1 : -32768 ≤ g.centerX) (hcx2 : g.centerX ≤ 32767)
    (hcy1 : -32768 ≤ g.centerY) (hcy2 : g.centerY ≤ 32767) :
    HexagonalGrid.getHexPosition g index = (g.centerX, g.centerY)
    ∧ HexagonalGrid.getHexPosition g 0 = (g.centerX, g.centerY) := by
  have hscan : HexagonalGrid.ringScan index = (0, 91) := by
    simp only [HexagonalGrid.ringScan, HexagonalGrid.RING_ITEMS,
      HexagonalGrid.ringScanAux]
    rw [if_neg (by omega), if_neg (by omega), if_neg (by omega),
      if_neg (by omega), if_neg (by omega), if_neg (by omega)]
  constructor
  · simp only [HexagonalGrid.getHexPosition, hscan]
    rw [if_neg (by omega)]
    norm_num
    constructor
    · rw [i16_eq_self hcx1 hcx2]
    · rw [i16_eq_self hcy1 hcy2]
  · simp [HexagonalGrid.getHexPosition]

/-- C10 (witness): index 91 of a concrete grid maps to the center. -/
theorem HexagonalGrid.getHexPosition_overflow_center_witness :
    HexagonalGrid.getHexPosition (HexagonalGrid.mk 180 180 40 10) 91
        = (180, 180)
    ∧ HexagonalGrid.getHexPosition (HexagonalGrid.mk 180 180 40 10) 0
        = (180, 180) :=
  HexagonalGrid.getHexPosition_overflow_center
    (HexagonalGrid.mk 180 180 40 10) 91 (by norm_num)
    (by decide) (by decide) (by decide) (by decide)

/-! ## C3 — position of item index 1 -/

/-- C3 (counterexample): for `itemRadius = 40, spacing = 10` and center
`(180, 180)`, item index 1 lands at `(257, 225)` — offset
`(+77, +45)` from center, not the claimed `(centerX + 45, centerY − 77.9)
≈ (225, 102)`: the x offset is not 45, and the point lies below the
center (`y > centerY`), not above it. -/
theorem HexagonalGrid.hexPosition_index1_counterexample :
    HexagonalGrid.getHexPosition (HexagonalGrid.mk 180 180 40 10) 1
        = (257, 225)
    ∧ (257 : ℤ) ≠ 180 + 45
    ∧ ¬((225 : ℤ) < 180) := by
  refine ⟨?_, by decide, by decide⟩
  have h := getHexPosition_one_eval 180 180 (by norm_num) (by norm_num)
    (by norm_num) (by norm_num)
  exact h.trans (by norm_num)

/-- C3 (amended): with `itemRadius = 40, spacing = 10`
(`hexDistance = 90`), item index 1 resolves to ring 1, slot 0, at angle
`30°` and radius `90` in the code's standard mathematical frame
(0° along the +x axis, angles increasing toward +y, i.e. screen-down):
`(centerX + 90·cos 30°, centerY + 90·sin 30°) = (centerX + 45√3,
centerY + 45) ≈ (centerX + 77.9, centerY + 45)`, truncated to
`(centerX + 77, centerY + 45)`. -/
theorem HexagonalGrid.hexPosition_index1_mathFrame (cx cy : ℤ)
    (hx1 : -32768 ≤ cx + 77) (hx2 : cx + 77 ≤ 32767)
    (hy1 : -32768 ≤ cy + 45) (hy2 : cy + 45 ≤ 32767) :
    HexagonalGrid.getHexPosition (HexagonalGrid.mk cx cy 40 10) 1
        = (cx + ⌊(45 : ℝ) * Real.sqrt 3⌋, cy + 45)
    ∧ ⌊(45 : ℝ) * Real.sqrt 3⌋ = 77 :=
  ⟨by rw [floor_45_sqrt3]; exact getHexPosition_one_eval cx cy hx1 hx2 hy1 hy2,
   floor_45_sqrt3⟩

/-- C3 (witness for the amended theorem). -/
theorem HexagonalGrid.hexPosition_index1_mathFrame_witness :
    HexagonalGrid.getHexPosition (HexagonalGrid.mk 120 120 40 10) 1
        = (120 + ⌊(45 : ℝ) * Real.sqrt 3⌋, 120 + 45)
    ∧ ⌊(45 : ℝ) * Real.sqrt 3⌋ = 77 :=
  HexagonalGrid.hexPosition_index1_mathFrame 120 120
    (by norm_num) (by norm_num) (by norm_num) (by norm_num)

theorem HexagonalGrid.setPositions_length (g : GridState) (l : List GridItem) :
    ∀ i, (HexagonalGrid.setPositions g l i).length = l.length := by
  induction l with
  | nil => intro i; rfl
  | cons it rest ih =>
    intro i
    simp [HexagonalGrid.setPositions, ih (i + 1)]

theorem HexagonalGrid.setPositions_getD_visible (g : GridState)
    (l : List GridItem) :
    ∀ i k, k < l.length →
      ((HexagonalGrid.setPositions g l i).getD k default).visible
        = (l.getD k default).visible := by
  induction l with
  | nil =>
    intro i k hk
    simp at hk
  | cons it rest ih =>
    intro i k hk
    cases k with
    | zero => simp [HexagonalGrid.setPositions]
    | succ k' =>
      simp only [HexagonalGrid.setPositions, List.getD_cons_succ]
      exact ih (i + 1) k' (by simpa using hk)

theorem HexagonalGrid.getD_append_length (l : List GridItem) (a d : GridItem) :
    (l ++ [a]).getD l.length d = a := by
  induction l with
  | nil => rfl
  | cons b rest ih =>
    rw [List.cons_append, List.length_cons, List.getD_cons_succ]
    exact ih

theorem HexagonalGrid.findHit_some_visible (g : GridState) (x y : ℤ)
    (l : List GridItem) :
    ∀ i j, HexagonalGrid.findHit g x y l i = some j →
      i ≤ j ∧ j - i < l.length ∧ (l.getD (j - i) default).visible = true := by
  induction l with
  | nil =>
    intro i j h
    simp [HexagonalGrid.findHit] at h
  | cons it rest ih =>
    intro i j h
    simp only [HexagonalGrid.findHit] at h
    by_cases hv : it.visible = true
    · rw [if_neg (by simp [hv])] at h
      by_cases hh : HexagonalGrid.hitTest g it x y = true
      · rw [if_pos hh] at h
        obtain rfl : i = j := by simp at h; exact h
        refine ⟨le_refl _, by simp, ?_⟩
        simp [hv]
      · rw [if_neg hh] at h
        obtain ⟨h1, h2, h3⟩ := ih (i + 1) j h
        refine ⟨by omega, by simp; omega, ?_⟩
        have hji : j - i = (j - (i + 1)) + 1 := by omega
        rw [hji, List.getD_cons_succ]
        exact h3
    · rw [if_pos (by simp [hv])] at h
      obtain ⟨h1, h2, h3⟩ := ih (i + 1) j h
      refine ⟨by omega, by simp; omega, ?_⟩
      have hji : j - i = (j - (i + 1)) + 1 := by omega
      rw [hji, List.getD_cons_succ]
      exact h3

theorem HexagonalGrid.findHit_none_of_all (g : GridState) (x y : ℤ)
    (l : List GridItem) :
    ∀ i, (∀ k, k < l.length →
        ¬((l.getD k default).visible = true ∧
          HexagonalGrid.hitTest g (l.getD k default) x y = true)) →
      HexagonalGrid.findHit g x y l i = none := by
  induction l with
  | nil => intro i _; rfl
  | cons it rest ih =>
    intro i h
    simp only [HexagonalGrid.findHit]
    have hrest : ∀ k, k < rest.length →
        ¬((rest.getD k default).visible = true ∧
          HexagonalGrid.hitTest g (rest.getD k default) x y = true) := by
      intro k hk
      have := h (k + 1) (by simpa using Nat.succ_lt_succ hk)
      simpa using this
    by_cases hv : it.visible = true
    · have h0 := h 0 (by simp)
      have hh : ¬HexagonalGrid.hitTest g it x y = true := by
        intro hcon
        apply h0
        simp [hv, hcon]
      rw [if_neg (by simp [hv]), if_neg hh]
      exact ih (i + 1) hrest
    · rw [if_pos (by simp [hv])]
      exact ih (i + 1) hrest

theorem HexagonalGrid.updateScrollBounds_items (g : GridState) :
    (HexagonalGrid.updateScrollBounds g).items = g.items := by
  rcases hg : g.items with - | ⟨it0, rest⟩ <;>
    simp [HexagonalGrid.updateScrollBounds, hg]

theorem HexagonalGrid.addItem_items (g : GridState) (item : GridItem) :
    (HexagonalGrid.addItem g item).items
      = HexagonalGrid.setPositions
          { g with items := g.items ++
              [{ item with index := (g.items.length : ℤ), visible := false }] }
          (g.items ++
            [{ item with index := (g.items.length : ℤ), visible := false }])
          0 := by
  simp [HexagonalGrid.addItem, HexagonalGrid.calculateItemPositions,
    HexagonalGrid.updateScrollBounds_items]

/-! ## C9 — items added invisible are excluded from hit-testing -/

/-- C9: `addItem` stores the new item with `visible = false`, and
`getItemAtPosition` skips invisible items; hence immediately after
`addItem` and before any `render`, a tap never resolves to the new
item's slot, and if no other visible item covers the tapped position,
`handleTap` returns false. -/
theorem HexagonalGrid.addItem_not_hit_before_render (g : GridState)
    (item : GridItem) (x y : ℤ)
    (hothers : ∀ k, k < g.items.length →
      ¬(((HexagonalGrid.addItem g item).items.getD k default).visible = true ∧
        HexagonalGrid.hitTest (HexagonalGrid.addItem g item)
          ((HexagonalGrid.addItem g item).items.getD k default) x y = true)) :
    HexagonalGrid.getItemAtPosition (HexagonalGrid.addItem g item) x y
        ≠ some g.items.length
    ∧ HexagonalGrid.handleTap (HexagonalGrid.addItem g item) x y = false := by
  have hlen : (HexagonalGrid.addItem g item).items.length
      = g.items.length + 1 := by
    rw [HexagonalGrid.addItem_items, HexagonalGrid.setPositions_length]
    simp
  have hvis : (((HexagonalGrid.addItem g item).items.getD
      g.items.length default)).visible = false := by
    rw [HexagonalGrid.addItem_items, HexagonalGrid.setPositions_getD_visible]
    · rw [HexagonalGrid.getD_append_length]
    · simp
  constructor
  · intro hsome
    simp only [HexagonalGrid.getItemAtPosition] at hsome
    obtain ⟨-, -, hv⟩ :=
      HexagonalGrid.findHit_some_visible (HexagonalGrid.addItem g item) x y
        (HexagonalGrid.addItem g item).items 0 g.items.length hsome
    rw [Nat.sub_zero, hvis] at hv
    exact absurd hv (by simp)
  · have hall : ∀ k, k < (HexagonalGrid.addItem g item).items.length →
        ¬(((HexagonalGrid.addItem g item).items.getD k default).visible = true ∧
          HexagonalGrid.hitTest (HexagonalGrid.addItem g item)
            ((HexagonalGrid.addItem g item).items.getD k default) x y
              = true) := by
      intro k hk
      rcases Nat.lt_or_ge k g.items.length with h | h
      · exact hothers k h
      · have hkr : k = g.items.length := by omega
        subst hkr
        rintro ⟨hv, -⟩
        rw [hvis] at hv
        exact absurd hv (by simp)
    have hnone := HexagonalGrid.findHit_none_of_all
      (HexagonalGrid.addItem g item) x y (HexagonalGrid.addItem g item).items
      0 hall
    simp [HexagonalGrid.handleTap, HexagonalGrid.getItemAtPosition, hnone]

/-- C9 (witness): tap at the freshly added item's own position
(the center) on a previously empty grid. -/
theorem HexagonalGrid.addItem_not_hit_before_render_witness :
    HexagonalGrid.getItemAtPosition
        (HexagonalGrid.addItem (HexagonalGrid.mk 180 180 40 10)
          ⟨true, 0, 0, 0, true⟩) 180 180 ≠ some 0
    ∧ HexagonalGrid.handleTap
        (HexagonalGrid.addItem (HexagonalGrid.mk 180 180 40 10)
          ⟨true, 0, 0, 0, true⟩) 180 180 = false :=
  HexagonalGrid.addItem_not_hit_before_render
    (HexagonalGrid.mk 180 180 40 10) ⟨true, 0, 0, 0, true⟩ 180 180
    (fun k hk => absurd hk (by simp [HexagonalGrid.mk]))

/-! ## C1 — long-press emission -/

/-- C1 (counterexample): a single stationary touch session (press at
t = 0, still held and unmoved at t = 900 ms and t = 1000 ms) emits
`LONG_PRESS` on both of the two later frames: the recognizer re-emits
`LongPress` on subsequent frames of the same session, refuting
"exactly once per session". -/
theorem TouchController.longPress_reemitted_counterexample :
    (TouchController.update (TouchController.update
        (TouchController.update TouchController.initState 100 100 true 0)
        100 100 true 900) 100 100 true 1000).lastEvent
      = TouchEvent.LONG_PRESS ∧
    (TouchController.update
        (TouchController.update TouchController.initState 100 100 true 0)
        100 100 true 900).lastEvent
      = TouchEvent.LONG_PRESS := by
  constructor <;> decide

/-- C1 (amended): on _every_ held frame of a session that is not
dragging, with elapsed time strictly greater than 800 ms and both
displacement components strictly below the 10 px drag threshold, the
recognizer emits `LONG_PRESS` — it has no once-per-session latch, so
`LongPress` fires on the first such frame and is re-emitted on each
subsequent stationary held frame of the same session. -/
theorem TouchController.longPress_every_stationary_frame
    (s : TouchState) (x y : ℤ) (now : ℕ)
    (hpress : s.currentTouch.pressed = true)
    (hdrag : s.isDragging = false)
    (hdur : now - s.touchStartTime > 800)
    (hdx : |i16 (x - s.touchStart.x)| < 10)
    (hdy : |i16 (y - s.touchStart.y)| < 10) :
    (TouchController.update s x y true now).lastEvent = TouchEvent.LONG_PRESS := by
  simp [TouchController.update, TouchController.detectGestures,
    hpress, hdrag, hdur, hdx, hdy]

/-- C1 (witness for the amended theorem). -/
theorem TouchController.longPress_every_stationary_frame_witness :
    (TouchController.update
        ⟨⟨100, 100, true, 0⟩, ⟨0, 0, false, 0⟩, ⟨100, 100, true, 0⟩,
          .NONE, 0, false⟩ 100 100 true 900).lastEvent
      = TouchEvent.LONG_PRESS :=
  TouchController.longPress_every_stationary_frame
    ⟨⟨100, 100, true, 0⟩, ⟨0, 0, false, 0⟩, ⟨100, 100, true, 0⟩, .NONE, 0, false⟩
    100 100 900 (by decide) (by decide) (by decide) (by decide) (by decide)

/-! ## C4 — navigateTo on an unregistered path -/

/-- C4: for every router state and every path absent from the route
registry, `navigateTo` returns false and leaves the state — in
particular the stack depth and the top page — unchanged. -/
theorem NavigationController.navigateTo_unregistered
    (fuel : ℕ) (s : NavState) (path : String) (clearStack : Bool)
    (h : NavigationController.findRoute s.routes path = none) :
    NavigationController.navigateTo fuel s path clearStack = (s, false) := by
  cases fuel with
  | zero => rfl
  | succ n => simp [NavigationController.navigateTo, h]

/-- C4 (witness): an empty registry never resolves a path. -/
theorem NavigationController.navigateTo_unregistered_witness :
    NavigationController.findRoute (NavState.mk [] [7] none).routes "/missing"
        = none ∧
      NavigationController.navigateTo 5 (NavState.mk [] [7] none) "/missing" true
        = (NavState.mk [] [7] none, false) :=
  ⟨rfl, NavigationController.navigateTo_unregistered 5 ⟨[], [7], none⟩
    "/missing" true rfl⟩

/-! ## C5 — goBack at depth ≤ 1 -/

/-- C5: whenever the navigation stack depth is at most 1, `goBack`
returns false and leaves the state (hence the stack's depth and
contents) unmodified. -/
theorem NavigationController.goBack_at_root (s : NavState)
    (h : s.stack.length ≤ 1) :
    NavigationController.goBack s = (s, false) := by
  have hc : NavigationController.canGoBack s = false := by
    simp [NavigationController.canGoBack]; omega
  simp [NavigationController.goBack, hc]

/-- C5 (witness): depth-1 stack. -/
theorem NavigationController.goBack_at_root_witness :
    (NavState.mk [] [3] none).stack.length ≤ 1 ∧
      NavigationController.goBack (NavState.mk [] [3] none)
        = (NavState.mk [] [3] none, false) :=
  ⟨by decide, NavigationController.goBack_at_root ⟨[], [3], none⟩ (by decide)⟩

/-! ## C8 — current route after a successful goBack -/

/-- C8: after every successful `goBack` (return value true),
`getCurrentRoute` returns null: the pop leaves a non-empty stack, so the
branch that nulls the current-route pointer always runs. -/
theorem NavigationController.goBack_success_currentRoute_none (s : NavState)
    (h : (NavigationController.goBack s).2 = true) :
    NavigationController.getCurrentRoute (NavigationController.goBack s).1
      = none := by
  by_cases hc : NavigationController.canGoBack s = true
  · have hlen : s.stack.length > 1 := by
      simpa [NavigationController.canGoBack] using hc
    have hne : s.stack.tail.isEmpty = false := by
      cases hstk : s.stack with
      | nil => rw [hstk] at hlen; simp at hlen
      | cons a t =>
        rw [hstk] at hlen
        cases t with
        | nil => simp at hlen
        | cons b t' => simp
    simp [NavigationController.goBack, NavigationController.getCurrentRoute,
      hc, hne]
  · simp [NavigationController.goBack, hc] at h

/-- C8 (witness): a depth-2 stack pops successfully and the current
route comes back null. -/
theorem NavigationController.goBack_success_currentRoute_none_witness :
    (NavigationController.goBack
        (NavState.mk [] [1, 2] (some ⟨"/", "Home", some 1, none, false⟩))).2
        = true ∧
      NavigationController.getCurrentRoute
        (NavigationController.goBack
          (NavState.mk [] [1, 2] (some ⟨"/", "Home", some 1, none, false⟩))).1
        = none :=
  ⟨by decide, NavigationController.goBack_success_currentRoute_none
    ⟨[], [1, 2], some ⟨"/", "Home", some 1, none, false⟩⟩ (by decide)⟩

/-! ## C6 — dirty-rectangle merging -/

/-- C6: with dirty tracking enabled and a clean tracker, marking two
disjoint in-bounds rectangles dirty leaves the single tracked dirty
rectangle equal to their bounding-box union; and `markAllDirty` sets the
dirty rectangle to exactly the full 360×360 surface from any prior
state. -/
theorem FrameBuffer.markDirty_disjoint_union (fb fb' : FrameBufferState)
    (x1 y1 w1 h1 x2 y2 w2 h2 : ℤ)
    (htrack : fb.dirtyTracking = true)
    (hclean : fb.dirtyRegion.dirty = false)
    (hx1 : 0 ≤ x1) (hy1 : 0 ≤ y1) (hw1 : 0 < w1) (hh1 : 0 < h1)
    (hr1 : x1 + w1 ≤ 360) (hb1 : y1 + h1 ≤ 360)
    (hx2 : 0 ≤ x2) (hy2 : 0 ≤ y2) (hw2 : 0 < w2) (hh2 : 0 < h2)
    (hr2 : x2 + w2 ≤ 360) (hb2 : y2 + h2 ≤ 360)
    (_hdisj : x1 + w1 ≤ x2 ∨ x2 + w2 ≤ x1 ∨ y1 + h1 ≤ y2 ∨ y2 + h2 ≤ y1) :
    (FrameBuffer.markDirty (FrameBuffer.markDirty fb x1 y1 w1 h1)
        x2 y2 w2 h2).dirtyRegion
      = FrameBuffer.boundingUnion ⟨x1, y1, w1, h1, true⟩ ⟨x2, y2, w2, h2, true⟩
    ∧ (FrameBuffer.markAllDirty fb').dirtyRegion = ⟨0, 0, 360, 360, true⟩ := by
  refine ⟨?_, rfl⟩
  have e1 : FrameBuffer.markDirty fb x1 y1 w1 h1
      = { fb with dirtyRegion := ⟨x1, y1, w1, h1, true⟩ } := by
    simp only [FrameBuffer.markDirty, htrack]
    rw [if_neg (by simp)]
    simp only [if_neg (show ¬x1 < 0 by omega), if_neg (show ¬y1 < 0 by omega),
      if_neg (show ¬x1 + w1 > 360 by omega),
      if_neg (show ¬y1 + h1 > 360 by omega)]
    rw [if_neg (by omega), if_pos (by simp [hclean])]
  rw [e1]
  have hmx : x1 + w1 ≤ max (x1 + w1) (x2 + w2) := le_max_left _ _
  have hmx' : max (x1 + w1) (x2 + w2) ≤ 360 := max_le hr1 hr2
  have hmy : y1 + h1 ≤ max (y1 + h1) (y2 + h2) := le_max_left _ _
  have hmy' : max (y1 + h1) (y2 + h2) ≤ 360 := max_le hb1 hb2
  have hnx : 0 ≤ min x1 x2 := le_min hx1 hx2
  have hnx' : min x1 x2 ≤ x1 := min_le_left _ _
  have hny : 0 ≤ min y1 y2 := le_min hy1 hy2
  have hny' : min y1 y2 ≤ y1 := min_le_left _ _
  have mx : i16 (max (x1 + w1) (x2 + w2)) = max (x1 + w1) (x2 + w2) :=
    i16_eq_self (by omega) (by omega)
  have my : i16 (max (y1 + h1) (y2 + h2)) = max (y1 + h1) (y2 + h2) :=
    i16_eq_self (by omega) (by omega)
  simp only [FrameBuffer.markDirty, htrack]
  rw [if_neg (by simp)]
  simp only [if_neg (show ¬x2 < 0 by omega), if_neg (show ¬y2 < 0 by omega),
    if_neg (show ¬x2 + w2 > 360 by omega),
    if_neg (show ¬y2 + h2 > 360 by omega)]
  rw [if_neg (by omega), if_neg (by simp)]
  simp only [FrameBuffer.boundingUnion, mx, my]
  congr 1
  · exact i16_eq_self (by omega) (by omega)
  · exact i16_eq_self (by omega) (by omega)

/-- C6 (witness): the rectangles (0,0,10,10) and (20,20,5,5). -/
theorem FrameBuffer.markDirty_disjoint_union_witness :
    (FrameBuffer.markDirty (FrameBuffer.markDirty
        (FrameBufferState.mk true ⟨0, 0, 0, 0, false⟩ 0) 0 0 10 10)
        20 20 5 5).dirtyRegion
      = FrameBuffer.boundingUnion ⟨0, 0, 10, 10, true⟩ ⟨20, 20, 5, 5, true⟩
    ∧ (FrameBuffer.markAllDirty
        (FrameBufferState.mk false ⟨3, 4, 5, 6, false⟩ 9)).dirtyRegion
      = ⟨0, 0, 360, 360, true⟩ :=
  FrameBuffer.markDirty_disjoint_union
    (FrameBufferState.mk true ⟨0, 0, 0, 0, false⟩ 0)
    (FrameBufferState.mk false ⟨3, 4, 5, 6, false⟩ 9)
    0 0 10 10 20 20 5 5 rfl rfl (by decide) (by decide) (by decide) (by decide)
    (by decide) (by decide) (by decide) (by decide) (by decide) (by decide)
    (by decide) (by decide) (Or.inl (by decide))

/-! ## Slider helper lemmas -/

theorem CircularSlider.clampLH_mem {mn mx : ℚ} (v : ℚ) (hm : mn ≤ mx) :
    mn ≤ CircularSlider.clampLH mn mx v ∧ CircularSlider.clampLH mn mx v ≤ mx := by
  simp only [CircularSlider.clampLH]
  split_ifs <;> constructor <;> linarith

theorem CircularSlider.normClamp01 {mn mx v : ℚ} (hm : mn ≤ mx)
    (h1 : mn ≤ v) (h2 : v ≤ mx) :
    0 ≤ (v - mn) / (mx - mn) ∧ (v - mn) / (mx - mn) ≤ 1 := by
  rcases eq_or_lt_of_le hm with heq | hlt
  · have hv : v = mn := le_antisymm (heq ▸ h2) h1
    rw [hv, sub_self, zero_div]
    norm_num
  · constructor
    · exact div_nonneg (by linarith) (by linarith)
    · rw [div_le_one (by linarith)]
      linarith

theorem truncQ_mem {q : ℚ} {b : ℤ} (h0 : 0 ≤ q) (hb : q ≤ (b : ℚ)) :
    0 ≤ truncQ q ∧ truncQ q ≤ b := by
  unfold truncQ
  rw [if_pos h0]
  constructor
  · exact Int.floor_nonneg.2 h0
  · have h := Int.floor_le_floor hb
    rwa [Int.floor_intCast] at h

theorem affine_mem {mn mx q : ℚ} (hm : mn ≤ mx) (h0 : 0 ≤ q) (h1 : q ≤ 1) :
    mn ≤ mn + q * (mx - mn) ∧ mn + q * (mx - mn) ≤ mx :=
  ⟨by nlinarith, by nlinarith⟩

/-- Bounds established by the post-`atan2` pipeline of
`calculateAngleFromTouch`: whatever int16 degree value comes out of the
cast, after the +90° shift, normalization, relative-angle unwrap and
dead-zone snap, the stored angle is in `[0, 360)` at an offset in
`[0, 270]` from the 135° start angle. -/
theorem CircularSlider.angleFromTouchDeg_bounds (s : SliderState)
    (hs : s.startAngle = 135) (angleDeg : ℤ) :
    0 ≤ (CircularSlider.calculateAngleFromTouchDeg s angleDeg).currentAngle ∧
    (CircularSlider.calculateAngleFromTouchDeg s angleDeg).currentAngle < 360 ∧
    0 ≤ CircularSlider.relAngleOf
        (CircularSlider.calculateAngleFromTouchDeg s angleDeg) ∧
    CircularSlider.relAngleOf (CircularSlider.calculateAngleFromTouchDeg s angleDeg)
      ≤ 270 := by
  simp only [CircularSlider.calculateAngleFromTouchDeg,
    CircularSlider.touchRelAngleRaw, CircularSlider.relAngleOf,
    normalizeAngle, i16, hs]
  split_ifs <;> omega

theorem CircularSlider.inv_calculateValueFromAngle (s : SliderState)
    (hm : s.minValue ≤ s.maxValue)
    (ha1 : 0 ≤ s.currentAngle) (ha2 : s.currentAngle < 360)
    (hr : CircularSlider.relAngleOf s ≤ 270) (hs : s.startAngle = 135) :
    CircularSlider.Inv (CircularSlider.calculateValueFromAngle s) := by
  have h0 : 0 ≤ CircularSlider.relAngleOf s := by
    unfold CircularSlider.relAngleOf
    split_ifs <;> omega
  have hq0 : 0 ≤ ((CircularSlider.relAngleOf s : ℤ) : ℚ) / 270 :=
    div_nonneg (by exact_mod_cast h0) (by norm_num)
  have hq1 : ((CircularSlider.relAngleOf s : ℤ) : ℚ) / 270 ≤ 1 := by
    rw [div_le_one (by norm_num)]
    exact_mod_cast hr
  have haf := affine_mem (q := ((CircularSlider.relAngleOf s : ℤ) : ℚ) / 270) hm hq0 hq1
  exact ⟨hm, haf.1, haf.2, haf.1, haf.2, ha1, ha2, hr, hs⟩

theorem CircularSlider.inv_smoothAnimation (s : SliderState)
    (h : CircularSlider.Inv s) :
    CircularSlider.Inv (CircularSlider.smoothAnimation s) := by
  obtain ⟨hm, hv1, hv2, ht1, ht2, ha1, ha2, hr, hs⟩ := h
  simp only [CircularSlider.smoothAnimation]
  split_ifs with h1 h2
  · exact ⟨hm, ht1, ht2, ht1, ht2, ha1, ha2, hr, hs⟩
  · refine ⟨hm, ?_, ?_, ht1, ht2, ha1, ha2, hr, hs⟩
    · show s.minValue ≤ s.value + (s.targetValue - s.value) * (1 / 5)
      nlinarith
    · show s.value + (s.targetValue - s.value) * (1 / 5) ≤ s.maxValue
      nlinarith
  · exact ⟨hm, hv1, hv2, ht1, ht2, ha1, ha2, hr, hs⟩

theorem CircularSlider.inv_setValue (s : SliderState)
    (h : CircularSlider.Inv s) (v : ℚ) :
    CircularSlider.Inv (CircularSlider.setValue s v) := by
  obtain ⟨hm, hv1, hv2, ht1, ht2, ha1, ha2, hr, hs⟩ := h
  have hc := CircularSlider.clampLH_mem v hm
  simp only [CircularSlider.setValue]
  by_cases he : s.value = CircularSlider.clampLH s.minValue s.maxValue v
  · rw [if_neg (by simpa using he)]
    exact ⟨hm, hv1, hv2, ht1, ht2, ha1, ha2, hr, hs⟩
  · rw [if_pos he]
    have hq := CircularSlider.normClamp01 hm hc.1 hc.2
    have ht : 0 ≤ truncQ ((CircularSlider.clampLH s.minValue s.maxValue v
          - s.minValue) / (s.maxValue - s.minValue) * 270) ∧
        truncQ ((CircularSlider.clampLH s.minValue s.maxValue v
          - s.minValue) / (s.maxValue - s.minValue) * 270) ≤ 270 := by
      refine truncQ_mem ?_ ?_
      · nlinarith [hq.1, hq.2]
      · push_cast
        nlinarith [hq.1, hq.2]
    refine ⟨hm, hc.1, hc.2, hc.1, hc.2, ?_, ?_, ?_, hs⟩
    · show 0 ≤ normalizeAngle (i16 (s.startAngle + _))
      rw [hs, i16_eq_self (by omega) (by omega)]
      unfold normalizeAngle
      omega
    · show normalizeAngle (i16 (s.startAngle + _)) < 360
      rw [hs, i16_eq_self (by omega) (by omega)]
      unfold normalizeAngle
      omega
    · show CircularSlider.relAngleOf _ ≤ 270
      unfold CircularSlider.relAngleOf
      simp only
      rw [hs, i16_eq_self (by omega) (by omega)]
      unfold normalizeAngle
      split_ifs <;> omega

theorem CircularSlider.inv_setRange (s : SliderState)
    (h : CircularSlider.Inv s) (mn mx : ℚ) (hop : mn ≤ mx) :
    CircularSlider.Inv (CircularSlider.setRange s mn mx) := by
  obtain ⟨hm, hv1, hv2, ht1, ht2, ha1, ha2, hr, hs⟩ := h
  exact CircularSlider.inv_calculateValueFromAngle _ hop ha1 ha2 hr hs

theorem CircularSlider.inv_update (s : SliderState)
    (h : CircularSlider.Inv s) (pressed : Bool) (x y : ℤ) :
    CircularSlider.Inv (CircularSlider.update s pressed x y) := by
  simp only [CircularSlider.update]
  by_cases he : s.enabled = true
  · rw [if_neg (by simp [he])]
    apply CircularSlider.inv_smoothAnimation
    obtain ⟨hm, hv1, hv2, ht1, ht2, ha1, ha2, hr, hs⟩ := h
    by_cases hb : (pressed && CircularSlider.contains s x y) = true
    · rw [if_pos hb]
      have hang := CircularSlider.angleFromTouchDeg_bounds
        { s with isDragging := true } hs
        (CircularSlider.touchAngleDeg (i16 (y - s.centerY)) (i16 (x - s.centerX)))
      have hinv2 := CircularSlider.inv_calculateValueFromAngle
        (CircularSlider.calculateAngleFromTouchDeg { s with isDragging := true }
          (CircularSlider.touchAngleDeg (i16 (y - s.centerY))
            (i16 (x - s.centerX))))
        hm hang.1 hang.2.1 hang.2.2.2 hs
      obtain ⟨a1, a2, a3, a4, a5, a6, a7, a8, a9⟩ := hinv2
      exact ⟨a1, a2, a3, a4, a5, a6, a7, a8, a9⟩
    · rw [if_neg hb]
      by_cases hd2 : (s.isDragging && !pressed) = true
      · rw [if_pos hd2]
        exact ⟨hm, hv1, hv2, ht1, ht2, ha1, ha2, hr, hs⟩
      · rw [if_neg hd2]
        exact ⟨hm, hv1, hv2, ht1, ht2, ha1, ha2, hr, hs⟩
  · rw [if_pos (by simp [he])]
    exact h

theorem CircularSlider.inv_mk (cx cy r ir : ℤ) :
    CircularSlider.Inv (CircularSlider.mk cx cy r ir) := by
  unfold CircularSlider.Inv CircularSlider.mk CircularSlider.relAngleOf
  norm_num

theorem CircularSlider.inv_applyOps (ops : List CircularSlider.SliderOp) :
    ∀ s, CircularSlider.Inv s → (∀ op ∈ ops, CircularSlider.opWF op) →
      CircularSlider.Inv (CircularSlider.applyOps s ops) := by
  induction ops with
  | nil => intro s h _; exact h
  | cons op rest ih =>
    intro s h hwf
    have h1 : CircularSlider.Inv (CircularSlider.applyOp s op) := by
      cases op with
      | setValue v => exact CircularSlider.inv_setValue s h v
      | setRange mn mx =>
        exact CircularSlider.inv_setRange s h mn mx
          (hwf (CircularSlider.SliderOp.setRange mn mx) (by simp))
      | update pressed x y => exact CircularSlider.inv_update s h pressed x y
    exact ih (CircularSlider.applyOp s op) h1
      (fun op' hop' => hwf op' (by simp [hop']))

/-! ## C7 — slider value and angle bounds -/

/-- C7: for every sequence of slider operations (`setValue`, `setRange`
with ordered bounds, `update` with any touch sample) starting from a
freshly constructed slider, the value stays within `[min, max]` and the
current angle stays within the 270° sweep starting at `startAngle`
(offset from `startAngle`, taken mod 360, in `[0, 270]`). -/
theorem CircularSlider.ops_preserve_value_angle_bounds (cx cy r ir : ℤ)
    (ops : List CircularSlider.SliderOp)
    (hwf : ∀ op ∈ ops, CircularSlider.opWF op) :
    (CircularSlider.applyOps (CircularSlider.mk cx cy r ir) ops).minValue
        ≤ (CircularSlider.applyOps (CircularSlider.mk cx cy r ir) ops).value
    ∧ (CircularSlider.applyOps (CircularSlider.mk cx cy r ir) ops).value
        ≤ (CircularSlider.applyOps (CircularSlider.mk cx cy r ir) ops).maxValue
    ∧ 0 ≤ CircularSlider.relAngleOf
        (CircularSlider.applyOps (CircularSlider.mk cx cy r ir) ops)
    ∧ CircularSlider.relAngleOf
        (CircularSlider.applyOps (CircularSlider.mk cx cy r ir) ops) ≤ 270 := by
  obtain ⟨hm, hv1, hv2, ht1, ht2, ha1, ha2, hr, hs⟩ :=
    CircularSlider.inv_applyOps ops (CircularSlider.mk cx cy r ir)
      (CircularSlider.inv_mk cx cy r ir) hwf
  refine ⟨hv1, hv2, ?_, hr⟩
  unfold CircularSlider.relAngleOf
  split_ifs <;> omega

/-- C7 (witness): a concrete operation sequence mixing all three
operations. -/
theorem CircularSlider.ops_preserve_value_angle_bounds_witness :
    (CircularSlider.applyOps (CircularSlider.mk 180 180 100 60)
        [CircularSlider.SliderOp.setValue 50,
         CircularSlider.SliderOp.setRange 0 10,
         CircularSlider.SliderOp.update false 3 4]).minValue
        ≤ (CircularSlider.applyOps (CircularSlider.mk 180 180 100 60)
        [CircularSlider.SliderOp.setValue 50,
         CircularSlider.SliderOp.setRange 0 10,
         CircularSlider.SliderOp.update false 3 4]).value
    ∧ (CircularSlider.applyOps (CircularSlider.mk 180 180 100 60)
        [CircularSlider.SliderOp.setValue 50,
         CircularSlider.SliderOp.setRange 0 10,
         CircularSlider.SliderOp.update false 3 4]).value
        ≤ (CircularSlider.applyOps (CircularSlider.mk 180 180 100 60)
        [CircularSlider.SliderOp.setValue 50,
         CircularSlider.SliderOp.setRange 0 10,
         CircularSlider.SliderOp.update false 3 4]).maxValue
    ∧ 0 ≤ CircularSlider.relAngleOf
        (CircularSlider.applyOps (CircularSlider.mk 180 180 100 60)
        [CircularSlider.SliderOp.setValue 50,
         CircularSlider.SliderOp.setRange 0 10,
         CircularSlider.SliderOp.update false 3 4])
    ∧ CircularSlider.relAngleOf
        (CircularSlider.applyOps (CircularSlider.mk 180 180 100 60)
        [CircularSlider.SliderOp.setValue 50,
         CircularSlider.SliderOp.setRange 0 10,
         CircularSlider.SliderOp.update false 3 4]) ≤ 270 :=
  CircularSlider.ops_preserve_value_angle_bounds 180 180 100 60
    [CircularSlider.SliderOp.setValue 50,
     CircularSlider.SliderOp.setRange 0 10,
     CircularSlider.SliderOp.update false 3 4]
    (by
      intro op hop
      simp only [List.mem_cons, List.not_mem_nil, or_false] at hop
      rcases hop with rfl | rfl | rfl
      · exact trivial
      · exact (by norm_num : (0 : ℚ) ≤ 10)
      · exact trivial)

/-! ## C2 — dead-zone touches and the snap branch -/

/-- C2 (counterexample): the point `(260, 180)`, due east of the slider
center `(180, 180)` with radius 100 and inner radius 60, passes
`contains` (distance 80 lies in the annulus), yet its touch angle — the
`atan2` of `(dy, dx) = (0, 80)` is exactly 0, shifted to 90° in the
"0 = up" frame — yields a relative angle of 315 > 270: a dead-zone touch
is accepted by `contains` and reaches the snap branch, refuting
"impossible by construction / unreachable". -/
theorem CircularSlider.deadZone_reachable_counterexample :
    CircularSlider.contains (CircularSlider.mk 180 180 100 60) 260 180 = true
    ∧ CircularSlider.touchAngleDeg (i16 ((180 : ℤ) - 180))
        (i16 ((260 : ℤ) - 180)) = 0
    ∧ CircularSlider.touchRelAngleRaw (CircularSlider.mk 180 180 100 60) 0 = 315
    ∧ (270 : ℤ) < 315 := by
  refine ⟨by decide, ?_, by decide, by decide⟩
  have h1 : i16 ((180 : ℤ) - 180) = 0 := by decide
  have h2 : i16 ((260 : ℤ) - 180) = 80 := by decide
  rw [h1, h2]
  unfold CircularSlider.touchAngleDeg CircularSlider.atan2
  have hmk : (⟨((80 : ℤ) : ℝ), ((0 : ℤ) : ℝ)⟩ : ℂ) = ((80 : ℝ) : ℂ) := by
    apply Complex.ext <;> simp
  rw [hmk]
  rw [Complex.arg_ofReal_of_nonneg (by norm_num), zero_mul, truncR_zero]
  decide

/-- C2 (amended): `contains` is a purely annular test, independent of
angle, so dead-zone touches can pass it (the counterexample exhibits
one); the `relativeAngle > 270` snap branch is therefore reachable, and
it clamps every accepted touch — whatever int16 degree value the `atan2`
cast produces — to a relative angle within `[0, 270]`, keeping the
stored angle inside the 270° sweep. -/
theorem CircularSlider.deadZone_snap_inSweep (s : SliderState)
    (hs : s.startAngle = 135) (angleDeg : ℤ) :
    0 ≤ CircularSlider.relAngleOf
        (CircularSlider.calculateAngleFromTouchDeg s angleDeg)
    ∧ CircularSlider.relAngleOf
        (CircularSlider.calculateAngleFromTouchDeg s angleDeg) ≤ 270 :=
  ⟨(CircularSlider.angleFromTouchDeg_bounds s hs angleDeg).2.2.1,
   (CircularSlider.angleFromTouchDeg_bounds s hs angleDeg).2.2.2⟩

/-- C2 (witness for the amended theorem): the dead-zone degree value 0
(the due-east touch of the counterexample). -/
theorem CircularSlider.deadZone_snap_inSweep_witness :
    0 ≤ CircularSlider.relAngleOf
        (CircularSlider.calculateAngleFromTouchDeg
          (CircularSlider.mk 180 180 100 60) 0)
    ∧ CircularSlider.relAngleOf
        (CircularSlider.calculateAngleFromTouchDeg
          (CircularSlider.mk 180 180 100 60) 0) ≤ 270 :=
  CircularSlider.deadZone_snap_inSweep (CircularSlider.mk 180 180 100 60) rfl 0
